import Mathlib

/-!
Verification development for the zoomtoslack repository: a Flask webhook
service (app.py) that validates Zoom webhook signatures (zoom_utils.py),
downloads the completed meeting recording, transcribes and summarizes it
(openai_utils.py) and posts the summary to Slack (slack_utils.py).

The Python code is shallowly embedded: pure functions become Lean
functions, stateful sequences become explicit parameter passing, external
network calls become oracle parameters, and Python exceptions become
Except / Option values.  HMAC-SHA256 hexdigest (the hmac and hashlib
library modules) is modelled as an uninterpreted function parameter of
type String → String → String (key, then message).
-/

/-- A JSON value, as produced by Flask request.get_json / json.loads.
Numbers are restricted to integers (the payload fields the code reads are
strings, integers, objects and arrays; no claim depends on floats).
Objects keep key order, as Python dicts do. -/
inductive Json where
  | null : Json
  | bool (b : Bool) : Json
  | num (n : Int) : Json
  | str (s : String) : Json
  | arr (xs : List Json) : Json
  | obj (kvs : List (String × Json)) : Json

/-- The opening-brace character, written by code point to keep brace
characters out of string literals. -/
def lbraceChar : Char := Char.ofNat 123

/-- The closing-brace character. -/
def rbraceChar : Char := Char.ofNat 125

/-- String escaping used by json.dumps, restricted to the characters that
occur in this development: quote and backslash are escaped, every other
character is emitted verbatim (the payloads the claims evaluate contain
no control or non-ASCII characters, which json.dumps would also escape). -/
def jsonEscapeChar (c : Char) : String :=
  if c == '"' then "\\\""
  else if c == '\\' then "\\\\"
  else String.singleton c

/-- Serialize a string literal as json.dumps does. -/
def jsonQuote (s : String) : String :=
  "\"" ++ String.join (s.toList.map jsonEscapeChar) ++ "\""

mutual

/-- Compact serialization, mirroring json.dumps(data, separators=(",", ":"))
at app.py line 68: no whitespace, keys in dict order. -/
def json_dumps : Json → String
  | Json.null => "null"
  | Json.bool true => "true"
  | Json.bool false => "false"
  | Json.num n => toString n
  | Json.str s => jsonQuote s
  | Json.arr xs => "[" ++ json_dumps_list xs ++ "]"
  | Json.obj kvs =>
      String.singleton lbraceChar ++ json_dumps_obj kvs ++ String.singleton rbraceChar

/-- Comma-separated serialization of array elements. -/
def json_dumps_list : List Json → String
  | [] => ""
  | [x] => json_dumps x
  | x :: y :: xs => json_dumps x ++ "," ++ json_dumps_list (y :: xs)

/-- Comma-separated serialization of object entries, with the
":" key separator of separators=(",", ":"). -/
def json_dumps_obj : List (String × Json) → String
  | [] => ""
  | [(k, v)] => jsonQuote k ++ ":" ++ json_dumps v
  | (k, v) :: p :: xs => jsonQuote k ++ ":" ++ json_dumps v ++ "," ++ json_dumps_obj (p :: xs)

end

/-- JSON whitespace characters. -/
def isJsonWs (c : Char) : Bool :=
  c == ' ' || c == '\n' || c == '\t' || c == '\r'

/-- Drop leading JSON whitespace. -/
def skipWs (cs : List Char) : List Char :=
  cs.dropWhile isJsonWs

/-- Parse the remainder of a JSON string literal (the opening quote has
been consumed), handling the basic escapes; returns the string and the
rest of the input. -/
def parseStringRest : List Char → Option (String × List Char)
  | [] => none
  | '"' :: rest => some ("", rest)
  | '\\' :: e :: rest =>
      match (if e == '"' then some '"'
             else if e == '\\' then some '\\'
             else if e == '/' then some '/'
             else if e == 'n' then some '\n'
             else if e == 't' then some '\t'
             else if e == 'r' then some '\r'
             else none) with
      | none => none
      | some c =>
          match parseStringRest rest with
          | none => none
          | some (s, r) => some (String.singleton c ++ s, r)
  | c :: rest =>
      match parseStringRest rest with
      | none => none
      | some (s, r) => some (String.singleton c ++ s, r)

/-- Parse a run of digits accumulating left to right (standard positional
reading); helper used by the value parser. -/
def parseNatAcc (acc : Nat) : List Char → Nat × List Char
  | c :: rest =>
      if c.isDigit then parseNatAcc (acc * 10 + (c.toNat - '0'.toNat)) rest
      else (acc, c :: rest)
  | [] => (acc, [])

mutual

/-- Fuel-indexed JSON value parser modelling the fragment of json.loads
(and hence Flask request.get_json) exercised here: objects, arrays,
strings with basic escapes, integers, true, false, null, with arbitrary
interleaved whitespace. -/
def parseValue : Nat → List Char → Option (Json × List Char)
  | 0, _ => none
  | Nat.succ fuel, cs =>
      match skipWs cs with
      | [] => none
      | c :: rest =>
          if c == '"' then
            match parseStringRest rest with
            | some (s, r) => some (Json.str s, r)
            | none => none
          else if c == lbraceChar then parseObjectBody fuel (skipWs rest)
          else if c == '[' then parseArrayBody fuel (skipWs rest)
          else if c == 't' then
            match rest with
            | 'r' :: 'u' :: 'e' :: r => some (Json.bool true, r)
            | _ => none
          else if c == 'f' then
            match rest with
            | 'a' :: 'l' :: 's' :: 'e' :: r => some (Json.bool false, r)
            | _ => none
          else if c == 'n' then
            match rest with
            | 'u' :: 'l' :: 'l' :: r => some (Json.null, r)
            | _ => none
          else if c == '-' then
            match rest with
            | d :: r =>
                if d.isDigit then
                  let (n, r2) := parseNatAcc (d.toNat - '0'.toNat) r
                  some (Json.num (-(n : Int)), r2)
                else none
            | [] => none
          else if c.isDigit then
            let (n, r2) := parseNatAcc (c.toNat - '0'.toNat) rest
            some (Json.num (n : Int), r2)
          else none

/-- Parse the inside of a JSON object (the opening brace has been
consumed, leading whitespace skipped). -/
def parseObjectBody : Nat → List Char → Option (Json × List Char)
  | 0, _ => none
  | Nat.succ fuel, cs =>
      match cs with
      | [] => none
      | c :: rest =>
          if c == rbraceChar then some (Json.obj [], rest)
          else if c == '"' then
            match parseStringRest rest with
            | none => none
            | some (k, r) =>
                match skipWs r with
                | ':' :: r2 =>
                    match parseValue fuel r2 with
                    | none => none
                    | some (v, r3) =>
                        match skipWs r3 with
                        | ',' :: r4 =>
                            match parseObjectBody fuel (skipWs r4) with
                            | some (Json.obj kvs, r5) => some (Json.obj ((k, v) :: kvs), r5)
                            | _ => none
                        | c2 :: r4 =>
                            if c2 == rbraceChar then some (Json.obj [(k, v)], r4)
                            else none
                        | [] => none
                | _ => none
          else none

/-- Parse the inside of a JSON array (the opening bracket has been
consumed, leading whitespace skipped). -/
def parseArrayBody : Nat → List Char → Option (Json × List Char)
  | 0, _ => none
  | Nat.succ fuel, cs =>
      match cs with
      | [] => none
      | ']' :: rest => some (Json.arr [], rest)
      | cs2 =>
          match parseValue fuel cs2 with
          | none => none
          | some (v, r) =>
              match skipWs r with
              | ',' :: r2 =>
                  match parseArrayBody fuel (skipWs r2) with
                  | some (Json.arr vs, r3) => some (Json.arr (v :: vs), r3)
                  | _ => none
              | ']' :: r2 => some (Json.arr [v], r2)
              | _ => none

end

/-- Parse a complete JSON document: a value followed only by whitespace.
Models what Flask request.get_json returns for the request body (None on
parse failure). -/
def parseJson (s : String) : Option Json :=
  match parseValue (s.length + 2) s.toList with
  | some (j, rest) => if (skipWs rest).isEmpty then some j else none
  | none => none

/-- Python truthiness of a JSON value: None, False, 0, empty string,
empty list and empty dict are falsy. -/
def jsonFalsy : Json → Bool
  | Json.null => true
  | Json.bool b => !b
  | Json.num n => n == 0
  | Json.str s => s == ""
  | Json.arr xs => xs.isEmpty
  | Json.obj kvs => kvs.isEmpty

/-- Truthiness of an optional value (dict.get result): absent means None,
hence falsy. -/
def optJsonFalsy : Option Json → Bool
  | none => true
  | some j => jsonFalsy j

/-- Dictionary lookup, dict.get(key) returning None when absent. -/
def jlookup (kvs : List (String × Json)) (k : String) : Option Json :=
  (kvs.find? (fun p => p.fst == k)).map (fun p => p.snd)

/-- dict.get(key, default). -/
def jlookupD (kvs : List (String × Json)) (k : String) (d : Json) : Json :=
  (jlookup kvs k).getD d

/-- Python str() of an optional JSON value, as used at app.py line 81 in
str(recording_info.get("id")).  str(None) is the four-character string
"None", hence truthy.  The arr and obj cases approximate the Python repr;
no claim evaluates them. -/
def pyStr : Option Json → String
  | none => "None"
  | some Json.null => "None"
  | some (Json.bool true) => "True"
  | some (Json.bool false) => "False"
  | some (Json.num n) => toString n
  | some (Json.str s) => s
  | some (Json.arr xs) => json_dumps (Json.arr xs)
  | some (Json.obj kvs) => json_dumps (Json.obj kvs)

/-- zoom_utils.validate_zoom_webhook (zoom_utils.py lines 89 to 122),
with the HMAC-SHA256 hexdigest passed in as an uninterpreted function
hmac_hex (key, message).  The body builds the signed message
"v0:" + timestamp + ":" + payload, prepends "v0=" to the digest, and
compares with hmac.compare_digest, whose functional content is string
equality.  The try/except wrapper cannot fire in this pure model (utf-8
encoding of Lean strings cannot fail). -/
def validate_zoom_webhook (hmac_hex : String → String → String)
    (signing_secret signature timestamp payload : String) : Bool :=
  let message := "v0:" ++ timestamp ++ ":" ++ payload
  let hash_digest := hmac_hex signing_secret message
  let expected_signature := "v0=" ++ hash_digest
  expected_signature == signature

/-- Whether the second list begins with the first. -/
def listStartsWith : List Char → List Char → Bool
  | [], _ => true
  | _ :: _, [] => false
  | a :: as2, b :: bs => a == b && listStartsWith as2 bs

/-- Split at the first occurrence of the separator, returning the parts
before and after it; none when the separator does not occur. -/
def splitFirstSub (sep : List Char) : List Char → Option (List Char × List Char)
  | [] => none
  | c :: rest =>
      if listStartsWith sep (c :: rest) then some ([], (c :: rest).drop sep.length)
      else
        match splitFirstSub sep rest with
        | some (a, b) => some (c :: a, b)
        | none => none

/-- str.split on a single separator character (all occurrences), the
semantics of Python split with a one-character separator. -/
def splitAllChar (sep : Char) : List Char → List (List Char)
  | [] => [[]]
  | c :: rest =>
      let gs := splitAllChar sep rest
      if c == sep then [] :: gs
      else
        match gs with
        | g :: t => (c :: g) :: t
        | [] => [[c]]

/-- pySplitChar sep s is the Python s.split(sep) for a one-character
separator. -/
def pySplitChar (sep : Char) (s : String) : List String :=
  (splitAllChar sep s.toList).map String.mk

/-- str.lower for the ASCII strings handled here. -/
def pyLower (s : String) : String :=
  String.mk (s.toList.map Char.toLower)

/-- The whitespace characters removed by str.strip. -/
def isPySpace (c : Char) : Bool :=
  c == ' ' || c == '\t' || c == '\n' || c == '\r'
    || c == Char.ofNat 11 || c == Char.ofNat 12

/-- str.strip with no argument: remove leading and trailing whitespace. -/
def pyTrim (s : String) : String :=
  String.mk (((s.toList.dropWhile isPySpace).reverse.dropWhile isPySpace).reverse)

/-- Restricted model of urllib.parse.urlparse for URLs of the shape
scheme://netloc/path, returning (scheme, netloc, path).  A string without
the "://" separator yields empty components, which is enough for the
truthiness test in is_valid_download_url (Python would put such a string
in path, but all three components must be nonempty for validity either
way). -/
def urlparse_parts (u : String) : String × String × String :=
  match splitFirstSub "://".toList u.toList with
  | none => ("", "", "")
  | some (before, after) =>
      match splitFirstSub ['/'] after with
      | none => (String.mk before, String.mk after, "")
      | some (netloc, pathRest) =>
          (String.mk before, String.mk netloc, String.mk ('/' :: pathRest))

/-- zoom_utils.is_valid_download_url (lines 124 to 139):
all([parsed.scheme, parsed.netloc, parsed.path]) on string truthiness. -/
def is_valid_download_url (download_url : String) : Bool :=
  let parts := urlparse_parts download_url
  !(parts.1 == "") && !(parts.2.1 == "") && !(parts.2.2 == "")

/-- os.path.splitext applied to a URL path, returning the extension
including its leading dot (empty when the final path component has no dot
beyond its leading dots). -/
def os_splitext_ext (p : String) : String :=
  let cs := (splitAllChar '/' p.toList).getLastD []
  let lead := (cs.takeWhile (fun c => c == '.')).length
  let idxs := (List.range cs.length).filter
    (fun i => lead ≤ i && cs.getD i ' ' == '.')
  match idxs.getLast? with
  | some i => String.mk (cs.drop i)
  | none => ""

/-- The supported_extensions list of zoom_utils.download_recording
(line 181). -/
def supported_extensions : List String := ["mp4", "m4a", "mov"]

/-- The file extension derived from the download URL in
download_recording lines 170 to 174: os.path.splitext on the URL path,
then lstrip("."). -/
def file_extension_of (download_url : String) : String :=
  let path := (urlparse_parts download_url).2.2
  let ext := os_splitext_ext path
  String.mk (ext.toList.dropWhile (fun c => c == '.'))

/-- The exceptions that can escape the body of download_recording.
requests.exceptions.HTTPError (raised by response.raise_for_status) is a
subclass of requests.exceptions.RequestException in the requests
library. -/
inductive DlErr where
  | requestException : DlErr
  | httpError : DlErr
deriving DecidableEq

/-- isinstance(e, requests.exceptions.RequestException): true for both
constructors, because HTTPError subclasses RequestException.  This is
the predicate tenacity evaluates through
retry_if_exception_type(requests.exceptions.RequestException). -/
def is_request_exception : DlErr → Bool
  | DlErr.requestException => true
  | DlErr.httpError => true

/-- Outcome of the single requests.get call inside one attempt of
download_recording: a network-level failure (ConnectionError, Timeout and
the like, all RequestException subclasses), an HTTP response with a
status code, or an exception outside the requests hierarchy. -/
inductive NetOutcome where
  | netError : NetOutcome
  | resp (status : Nat) : NetOutcome
  | otherError : NetOutcome

/-- One attempt of the body of zoom_utils.download_recording (lines 146
to 200): invalid URL returns None before any network call; a network
error raises RequestException (re-raised at line 197 to trigger retry);
raise_for_status raises HTTPError for a status of 400 or above; an
unsupported derived file extension returns None; any non-requests
exception is swallowed by the final except and returns None; otherwise
the temp file path is returned. -/
def download_attempt (download_url temp_name : String) (net : NetOutcome) :
    Except DlErr (Option String) :=
  if is_valid_download_url download_url = false then Except.ok none
  else
    match net with
    | NetOutcome.netError => Except.error DlErr.requestException
    | NetOutcome.otherError => Except.ok none
    | NetOutcome.resp status =>
        if 400 ≤ status then Except.error DlErr.httpError
        else
          let fe := file_extension_of download_url
          let fe2 := if fe == "" then "mp4" else fe
          if supported_extensions.contains (pyLower fe2) then Except.ok (some temp_name)
          else Except.ok none

/-- Observable outcome of the decorated download_recording: a returned
value, a tenacity RetryError raised after the attempt budget is
exhausted (tenacity without reraise wraps the last exception), or an
exception tenacity does not retry, propagated directly. -/
inductive DlOutcome where
  | returned (path : Option String) : DlOutcome
  | raisedRetryError (last : DlErr) : DlOutcome
  | raisedDirect (e : DlErr) : DlOutcome
deriving DecidableEq

/-- The tenacity retry loop of the decorator at zoom_utils lines 141 to
145: stop_after_attempt(3), retry only on RequestException.  fuel is the
number of retries still allowed, n the current attempt number; the
result carries the number of attempts executed. -/
def tenacity_loop (download_url temp_name : String) (net : Nat → NetOutcome) :
    Nat → Nat → DlOutcome × Nat
  | 0, n =>
      match download_attempt download_url temp_name (net n) with
      | Except.ok v => (DlOutcome.returned v, n)
      | Except.error e =>
          if is_request_exception e then (DlOutcome.raisedRetryError e, n)
          else (DlOutcome.raisedDirect e, n)
  | Nat.succ fuel, n =>
      match download_attempt download_url temp_name (net n) with
      | Except.ok v => (DlOutcome.returned v, n)
      | Except.error e =>
          if is_request_exception e then
            tenacity_loop download_url temp_name net fuel (n + 1)
          else (DlOutcome.raisedDirect e, n)

/-- zoom_utils.download_recording under its @retry decorator: first
attempt plus at most two retries (stop_after_attempt(3)).  net gives the
network outcome of each attempt, indexed from 1. -/
def download_recording (download_url temp_name : String) (net : Nat → NetOutcome) :
    DlOutcome × Nat :=
  tenacity_loop download_url temp_name net 2 1

/-- One Slack channel entry as handled by slack_utils. -/
structure SlackChannel where
  name : String
  topic : String
  id : String

/-- slack_utils.get_all_public_channels (lines 26 to 58): the fetched
channel list with name and topic lowercased.  The paginated fetch itself
is the oracle argument. -/
def get_all_public_channels (fetched : List SlackChannel) : List SlackChannel :=
  fetched.map (fun c => SlackChannel.mk (pyLower c.name) (pyLower c.topic) c.id)

/-- Outcome of the client.conversations_create call in
ensure_default_channel_exists. -/
inductive CreateChannelResult where
  | ok (id : String) : CreateChannelResult
  | nameTaken : CreateChannelResult
  | otherError : CreateChannelResult

/-- slack_utils.ensure_default_channel_exists (lines 112 to 152): search
the fetched public channels for the lowercased default name; if absent,
create the channel; if creation fails with name_taken, re-fetch and
search again; any other failure yields None. -/
def ensure_default_channel_exists (fetched : List SlackChannel)
    (createResult : CreateChannelResult) (refetched : List SlackChannel)
    (default_channel_name : String) : Option String :=
  let public_channels := get_all_public_channels fetched
  let normalized_default_name := pyLower default_channel_name
  match public_channels.find? (fun c => c.name == normalized_default_name) with
  | some c => some c.id
  | none =>
      match createResult with
      | CreateChannelResult.ok id => some id
      | CreateChannelResult.nameTaken =>
          let public_channels2 := get_all_public_channels refetched
          match public_channels2.find? (fun c => c.name == pyLower default_channel_name) with
          | some c => some c.id
          | none => none
      | CreateChannelResult.otherError => none

/-- Character class [A-Z0-9] of the channel-id regular expressions in
openai_utils.determine_slack_channel. -/
def isChannelIdChar (c : Char) : Bool :=
  c.isUpper || c.isDigit

/-- re.match of the anchored pattern (C[A-Z0-9]\x7b7,\x7d)$ against the whole
string: a C followed by at least seven characters of the class, nothing
else. -/
def channel_id_fullmatch (s : String) : Bool :=
  match s.toList with
  | 'C' :: rest => decide (7 ≤ rest.length) && rest.all isChannelIdChar
  | _ => false

/-- re.search of C[A-Z0-9]\x7b7,\x7d: the leftmost position where a C is
followed by at least seven class characters, matched greedily. -/
def channel_id_search : List Char → Option String
  | [] => none
  | c :: rest =>
      if c == 'C' then
        let run := rest.takeWhile isChannelIdChar
        if 7 ≤ run.length then some (String.mk ('C' :: run))
        else channel_id_search rest
      else channel_id_search rest

/-- The response-validation logic of openai_utils.determine_slack_channel
(lines 96 to 117) as written: strip the model response, accept a full
regex match, map "none" (case-insensitively) to None, otherwise extract
an embedded channel-id-shaped substring, else None.  Note that this
logic consults only the response string: the public_channels parameter is
used to build the prompt (line 70) and never to check the returned id.
Note also that the module never imports re, so at runtime line 100
raises NameError before any of this executes; see
determine_slack_channel_runtime. -/
def determine_slack_channel_validate (channel_id_raw : String) : Option String :=
  let s := pyTrim channel_id_raw
  if channel_id_fullmatch s then some s
  else if pyLower s == "none" then none
  else channel_id_search s.toList

/-- The call-time behaviour of openai_utils.determine_slack_channel in
this snapshot: openai_utils.py imports os, logging, openai and json but
not re, so the re.match at line 100 raises NameError, which the
except Exception handler at line 121 catches, returning None for every
input. -/
def determine_slack_channel_runtime (_channel_id_raw : String) : Option String :=
  none

/-- The parameter list of openai_utils.generate_summary (line 125); all
parameters are required (no defaults). -/
def generate_summary_params : List String :=
  ["transcript", "meeting_title", "host_email", "meeting_id",
   "meeting_date", "meeting_time", "duration"]

/-- The keyword arguments of the generate_summary call at app.py lines
145 to 154. -/
def app_generate_summary_call_kwargs : List String :=
  ["transcript", "meeting_title", "host_email", "meeting_id",
   "meeting_date", "meeting_time", "participants", "duration"]

/-- Python keyword-argument binding for a signature without defaults:
the call succeeds exactly when every supplied keyword names a parameter
(else TypeError: unexpected keyword argument) and every parameter is
supplied (else TypeError: missing required argument). -/
def py_keyword_call_ok (params kwargs : List String) : Bool :=
  kwargs.all (fun k => params.contains k) && params.all (fun p => kwargs.contains p)

/-- Whether the app.py call of generate_summary binds. -/
def generate_summary_call_ok : Bool :=
  py_keyword_call_ok generate_summary_params app_generate_summary_call_kwargs

/-- openai_utils.determine_slack_channel declares three required
parameters (meeting_topic, meeting_summary, public_channels). -/
def determine_slack_channel_param_count : Nat := 3

/-- app.py line 187 passes two positional arguments. -/
def app_determine_slack_channel_arg_count : Nat := 2

/-- Python positional binding for a signature without defaults: the call
binds exactly when the argument count equals the parameter count. -/
def determine_slack_channel_call_ok : Bool :=
  app_determine_slack_channel_arg_count == determine_slack_channel_param_count

/-- Dictionary item assignment d[k] = v, preserving insertion order:
replace in place when the key exists, append otherwise.  Item assignment
on a non-dict raises TypeError; the non-obj case returns the value
unchanged and is unreachable on the modelled paths (both operands of the
assignments at app.py line 184 and openai_utils line 190 are dicts
there). -/
def jset (j : Json) (k : String) (v : Json) : Json :=
  match j with
  | Json.obj kvs =>
      if (kvs.find? (fun p => p.fst == k)).isSome then
        Json.obj (kvs.map (fun p => if p.fst == k then (k, v) else p))
      else Json.obj (kvs ++ [(k, v)])
  | other => other

/-- The meeting_details dict that openai_utils.generate_summary writes
into the parsed model output (lines 190 to 196).  It has no participants
entry. -/
def generate_summary_details (meeting_title host_email meeting_id meeting_date
    meeting_time : String) (duration : Json) : Json :=
  Json.obj [("title", Json.str meeting_title),
            ("date_time", Json.str (meeting_date ++ " at " ++ meeting_time)),
            ("host_email", Json.str host_email),
            ("meeting_id", Json.str meeting_id),
            ("duration", duration)]

/-- openai_utils.generate_summary (lines 125 to 209) with the model call
abstracted: model_output is the JSON parse of the completion text (none
for a json.JSONDecodeError, which returns the empty dict), into which the
meeting_details entry is assigned.  A parsed value that is not a dict
makes the item assignment at line 190 raise TypeError, caught by the
generic handler, returning the empty dict.  Provider errors likewise
return the empty dict and are covered by model_output = none. -/
def generate_summary_result (model_output : Option Json) (meeting_title host_email
    meeting_id meeting_date meeting_time : String) (duration : Json) : Json :=
  match model_output with
  | some (Json.obj kvs) =>
      jset (Json.obj kvs) "meeting_details"
        (generate_summary_details meeting_title host_email meeting_id
          meeting_date meeting_time duration)
  | _ => Json.obj []

/-- The fallback meeting_summary dict built at app.py lines 157 to 175
when generate_summary returned a falsy value. -/
def app_placeholder_summary (meeting_topic meeting_date meeting_time host_email
    meeting_id : String) (participants : List String) (duration : Json) : Json :=
  Json.obj [
    ("meeting_details", Json.obj [
      ("title", Json.str meeting_topic),
      ("date_time", Json.str (meeting_date ++ " at " ++ meeting_time)),
      ("host_email", Json.str host_email),
      ("meeting_id", Json.str meeting_id),
      ("participants", Json.arr (participants.map Json.str)),
      ("duration", duration)]),
    ("share_details", Json.obj [
      ("play_url", Json.str "No play URL available."),
      ("password", Json.str "No password available.")]),
    ("meeting_summary", Json.obj [
      ("summary_overview", Json.str "No overview available."),
      ("main_topics", Json.arr []),
      ("action_items", Json.arr [])])]

/-- The share_details dict built at app.py lines 178 to 181. -/
def app_share_details (recording_url : Json) (play_passcode : Json) : Json :=
  Json.obj [("play_url", recording_url), ("password", play_passcode)]

/-- app.py lines 155 to 184: substitute the placeholder when
generate_summary returned a falsy value, then overwrite share_details. -/
def app_final_meeting_summary (gen : Json) (meeting_topic meeting_date meeting_time
    host_email meeting_id : String) (participants : List String) (duration : Json)
    (recording_url : Json) (play_passcode : Json) : Json :=
  let meeting_summary :=
    if jsonFalsy gen then
      app_placeholder_summary meeting_topic meeting_date meeting_time host_email
        meeting_id participants duration
    else gen
  jset meeting_summary "share_details" (app_share_details recording_url play_passcode)

/-- The top-level keys of a summary object. -/
def topLevelKeys : Json → List String
  | Json.obj kvs => kvs.map (fun p => p.fst)
  | _ => []

/-- Direct subscript j[k]: none models the KeyError (missing key) or
TypeError (non-dict) that would propagate to the outer handler. -/
def jgetIn (j : Json) (k : String) : Option Json :=
  match j with
  | Json.obj kvs => jlookup kvs k
  | _ => none

/-- Python str() of a JSON value, as applied by f-string interpolation. -/
def pyStrJ (j : Json) : String := pyStr (some j)

/-- The main-topics loop of app.py lines 217 to 218: each entry is
subscripted with "topic" and "timestamp"; a non-dict entry or a missing
key raises (none). -/
def render_topics : List Json → Option String
  | [] => some ""
  | Json.obj t :: rest =>
      match jlookup t "topic", jlookup t "timestamp" with
      | some tp, some ts =>
          match render_topics rest with
          | some s =>
              some ("  - **" ++ pyStrJ tp ++ "** (Timestamp: " ++ pyStrJ ts ++ ")\n" ++ s)
          | none => none
      | _, _ => none
  | _ :: _ => none

/-- The action-items loop of app.py lines 222 to 223. -/
def render_actions : List Json → Option String
  | [] => some ""
  | Json.obj t :: rest =>
      match jlookup t "action_item", jlookup t "responsible" with
      | some ai, some rp =>
          match render_actions rest with
          | some s =>
              some ("  - **" ++ pyStrJ ai ++ "** (Responsible: " ++ pyStrJ rp ++ ")\n" ++ s)
          | none => none
      | _, _ => none
  | _ :: _ => none

/-- The message-formatting step of app.py lines 200 to 223, building
recording_summary from the meeting_summary object.  none models an
exception (KeyError, TypeError, AttributeError) escaping to the outer
boundary: direct subscripts are used for meeting_details, its four
rendered fields, share_details and its two fields, while the
meeting_summary section is read with .get defaults. -/
def build_recording_summary (meeting_summary : Json) : Option String := do
  let kvs ← match meeting_summary with
    | Json.obj kvs => some kvs
    | _ => none
  let skvs ← match jlookupD kvs "meeting_summary" (Json.obj []) with
    | Json.obj s => some s
    | _ => none
  let mdJ ← jlookup kvs "meeting_details"
  let md ← match mdJ with
    | Json.obj m => some m
    | _ => none
  let title ← jlookup md "title"
  let date_time ← jlookup md "date_time"
  let host_email ← jlookup md "host_email"
  let meeting_id ← jlookup md "meeting_id"
  let sdJ ← jlookup kvs "share_details"
  let sd ← match sdJ with
    | Json.obj s => some s
    | _ => none
  let play_url ← jlookup sd "play_url"
  let password ← jlookup sd "password"
  let overview := jlookupD skvs "summary_overview" (Json.str "No overview available.")
  let topics ← match jlookupD skvs "main_topics" (Json.arr []) with
    | Json.arr ts => render_topics ts
    | _ => none
  let acts ← match jlookupD skvs "action_items" (Json.arr []) with
    | Json.arr items => render_actions items
    | _ => none
  some ("*Meeting Title & Basic Details:*\n"
    ++ "- **Title:** " ++ pyStrJ title ++ "\n"
    ++ "- **Date & Time:** " ++ pyStrJ date_time ++ "\n"
    ++ "- **Host Email:** " ++ pyStrJ host_email ++ "\n"
    ++ "- **Meeting ID:** " ++ pyStrJ meeting_id ++ "\n\n"
    ++ "*Share Details:*\n"
    ++ "- **Play URL:** " ++ pyStrJ play_url ++ "\n"
    ++ "- **Password:** " ++ pyStrJ password ++ "\n\n"
    ++ "*Meeting Summary:*\n"
    ++ "- **Brief Overview:** " ++ pyStrJ overview ++ "\n"
    ++ "- **Main Topics Discussed:**\n"
    ++ topics
    ++ "\n- **Action Items:**\n"
    ++ acts)

/-- The loop at app.py lines 102 to 106: scan recording_files for the
first entry whose file_type equals "MP4" and stop there.  A non-dict
entry reached by the scan makes file.get raise AttributeError
(Except.error); an entry whose file_type is absent or not the string
"MP4" is skipped (None == "MP4" is False in Python). -/
def find_mp4_file : List Json → Except Unit (Option (List (String × Json)))
  | [] => Except.ok none
  | Json.obj fk :: rest =>
      if (match jlookup fk "file_type" with
          | some (Json.str t) => t == "MP4"
          | _ => false) then
        Except.ok (some fk)
      else find_mp4_file rest
  | _ :: _ => Except.error ()

/-- Oracle inputs for one request to the /zoom-webhook handler: the
configured secret, the HMAC function, and the outcomes of the external
calls the handler makes.  get_meeting_participants and get_channel_id are
imported by app.py but absent from this snapshot of the repository, so
they are modelled from the spec as oracles: participants_data is the
fetched participant list (each entry reduced to its optional user_email
field, spec section 4.2), and get_channel_id is a name-to-id lookup that
may fail (spec section 4.5 channel resolution).  download_result is the
observable outcome of download_recording (Except.error models a
RetryError propagating out of the tenacity decorator). -/
structure PyEnv where
  secret : String
  hmac_hex : String → String → String
  participants_data : Option (List (Option String))
  download_result : Except Unit (Option String)
  transcript : String
  gen_summary_output : Option Json
  chan_raw : String
  get_channel_id : Option String → Option String
  ensure_default_result : Option String
  post_result : Bool
  remove_raises : Bool

/-- Which externally visible calls the handler made during one request,
and whether the temporary recording file was removed. -/
structure CallTrace where
  calledDownload : Bool := false
  calledTranscribe : Bool := false
  calledGenerateSummary : Bool := false
  calledDetermineChannel : Bool := false
  calledPost : Bool := false
  removedFile : Bool := false
deriving DecidableEq

/-- The HTTP response of one request: status code, the message field of
the JSON body, and the call trace. -/
structure HttpReply where
  status : Nat
  message : String
  trace : CallTrace
deriving DecidableEq

/-- app.py lines 155 to 243, the code after the generate_summary call
(unreachable at runtime because that call raises TypeError, but embedded
faithfully): placeholder substitution, share_details update, the
determine_slack_channel call (which itself raises TypeError: app.py
passes two positional arguments to a three-parameter function), channel
resolution with default fallback, message formatting, posting, and the
cleanup of the temporary file inside its own try/except. -/
def zoom_webhook_post_summary (env : PyEnv) (t3 : CallTrace)
    (meeting_topic meeting_date meeting_time host_email meeting_id : String)
    (participants : List String) (duration : Json)
    (recording_url : Json) (play_passcode : Json) : HttpReply :=
  let gen := generate_summary_result env.gen_summary_output meeting_topic host_email
    meeting_id meeting_date meeting_time duration
  let meeting_summary := app_final_meeting_summary gen meeting_topic meeting_date
    meeting_time host_email meeting_id participants duration recording_url play_passcode
  let t4 := { t3 with calledDetermineChannel := true }
  if !determine_slack_channel_call_ok then HttpReply.mk 500 "Internal server error." t4
  else
    let slack_channel := determine_slack_channel_runtime env.chan_raw
    let channel_id0 := env.get_channel_id slack_channel
    let ci0_falsy := match channel_id0 with
      | none => true
      | some s => s == ""
    let channel_id := if ci0_falsy then env.ensure_default_result else channel_id0
    let ci_falsy := match channel_id with
      | none => true
      | some s => s == ""
    if ci_falsy then
      HttpReply.mk 500 "Failed to post the meeting summary to Slack." t4
    else
      match build_recording_summary meeting_summary with
      | none => HttpReply.mk 500 "Internal server error." t4
      | some _msg =>
          let t5 := { t4 with calledPost := true }
          let t6 := { t5 with removedFile := !env.remove_raises }
          HttpReply.mk 200 "Event received" t6

/-- app.py lines 79 to 243 given the recording_info dict: field
extraction, the meeting-id/uuid guard, the recording_files scan for an
MP4 entry, start_time splitting, participant extraction, download,
transcription and the generate_summary call, whose keyword binding fails
(participants is not a parameter of generate_summary), raising TypeError
to the outer boundary. -/
def zoom_webhook_recording_info (env : PyEnv) (info : List (String × Json))
    (t0 : CallTrace) : HttpReply :=
  let meeting_topic := pyStr (some (jlookupD info "topic" (Json.str "No topic")))
  let meeting_id := pyStr (jlookup info "id")
  let host_email := pyStr (some (jlookupD info "host_email" (Json.str "No host email provided")))
  let meeting_uuid := jlookup info "uuid"
  if meeting_id == "" || optJsonFalsy meeting_uuid then
    HttpReply.mk 400 "Invalid request: Missing meeting ID or UUID" t0
  else
    match jlookupD info "recording_files" (Json.arr []) with
    | Json.arr files =>
        if files.isEmpty then HttpReply.mk 200 "No recordings available in payload." t0
        else
          match find_mp4_file files with
          | Except.error _ => HttpReply.mk 500 "Internal server error." t0
          | Except.ok mp4? =>
              let recording_url := match mp4? with
                | some fk => jlookup fk "download_url"
                | none => none
              let download_token := match mp4? with
                | some fk => jlookup fk "download_token"
                | none => none
              if optJsonFalsy recording_url || optJsonFalsy download_token then
                HttpReply.mk 400 "Recording URL or download token is missing." t0
              else
                match jlookupD info "start_time" (Json.str "Unknown DateTime") with
                | Json.str start_time =>
                    let dm :=
                      if (start_time.toList.contains 'T') && (start_time.toList.contains 'Z') then
                        ((pySplitChar 'T' start_time).headD "",
                         (pySplitChar 'Z' ((pySplitChar 'T' start_time).getD 1 "")).headD "")
                      else ("Unknown Date", "Unknown Time")
                    let participants := match env.participants_data with
                      | some (e :: es) =>
                          let ps := (e :: es).filterMap (fun o => match o with
                            | some s => if s == "" then none else some s
                            | none => none)
                          if ps.isEmpty then ["Unknown Participant"] else ps
                      | _ => ["Unknown Participant"]
                    let duration := jlookupD info "duration" (Json.str "Unknown Duration")
                    let t1 := { t0 with calledDownload := true }
                    match env.download_result with
                    | Except.error _ => HttpReply.mk 500 "Internal server error." t1
                    | Except.ok none => HttpReply.mk 400 "Failed to download recording." t1
                    | Except.ok (some _path) =>
                        let t2 := { t1 with calledTranscribe := true }
                        let _transcript :=
                          if env.transcript == "" then "No transcription available."
                          else env.transcript
                        let t3 := { t2 with calledGenerateSummary := true }
                        if !generate_summary_call_ok then
                          HttpReply.mk 500 "Internal server error." t3
                        else
                          zoom_webhook_post_summary env t3 meeting_topic dm.1 dm.2
                            host_email meeting_id participants duration
                            (recording_url.getD Json.null)
                            (jlookupD info "play_passcode" (Json.str "No password available."))
                | _ => HttpReply.mk 500 "Internal server error." t0
    | other =>
        if jsonFalsy other then HttpReply.mk 200 "No recordings available in payload." t0
        else HttpReply.mk 500 "Internal server error." t0

/-- The recording-completed branch entry: recording_info =
data["payload"]["object"] with direct subscripts; a missing key or
non-dict value raises to the outer boundary (500). -/
def zoom_webhook_recording (env : PyEnv) (dkvs : List (String × Json))
    (t0 : CallTrace) : HttpReply :=
  match jlookup dkvs "payload" with
  | none => HttpReply.mk 500 "Internal server error." t0
  | some (Json.obj pkvs) =>
      match jlookup pkvs "object" with
      | none => HttpReply.mk 500 "Internal server error." t0
      | some (Json.obj info) => zoom_webhook_recording_info env info t0
      | some _ => HttpReply.mk 500 "Internal server error." t0
  | some _ => HttpReply.mk 500 "Internal server error." t0

/-- The /zoom-webhook POST handler, app.py lines 52 to 243.  data? is the
result of request.get_json() (obtained here by parseJson on the raw
body); sig? and ts? are the x-zm-signature and x-zm-request-timestamp
headers.  The payload string given to validate_zoom_webhook is
json.dumps(data, separators=(",", ":")) - a re-serialization of the
parsed body, not the raw bytes (app.py line 68).  Any exception from the
body is caught once at the outer boundary and mapped to a 500 response;
events other than recording.completed fall through to the final 200
acknowledgement. -/
def zoom_webhook (env : PyEnv) (data? : Option Json) (sig? ts? : Option String) :
    HttpReply :=
  let t0 : CallTrace := {}
  match data? with
  | none => HttpReply.mk 400 "Invalid request: No data provided" t0
  | some data =>
      if jsonFalsy data then HttpReply.mk 400 "Invalid request: No data provided" t0
      else
        let sigFalsy := match sig? with
          | none => true
          | some s => s == ""
        let tsFalsy := match ts? with
          | none => true
          | some s => s == ""
        if sigFalsy || tsFalsy then
          HttpReply.mk 400 "Invalid request: Missing signature or timestamp headers." t0
        else
          let zoom_signature := sig?.getD ""
          let zoom_timestamp := ts?.getD ""
          let payload := json_dumps data
          if !(validate_zoom_webhook env.hmac_hex env.secret zoom_signature
                zoom_timestamp payload) then
            HttpReply.mk 401 "Unauthorized" t0
          else
            match data with
            | Json.obj dkvs =>
                if (match jlookup dkvs "event" with
                    | some (Json.str e) => e == "recording.completed"
                    | _ => false) then
                  zoom_webhook_recording env dkvs t0
                else HttpReply.mk 200 "Event received" t0
            | _ => HttpReply.mk 500 "Internal server error." t0

/-- Whether the first list occurs as a contiguous sublist of the second. -/
def listContainsSub : List Char → List Char → Bool
  | needle, [] => needle.isEmpty
  | needle, c :: t => listStartsWith needle (c :: t) || listContainsSub needle t

/-- Whether needle occurs as a substring of hay; used to state that a
response body does or does not carry a given token. -/
def strContainsSub (hay needle : String) : Bool :=
  listContainsSub needle.toList hay.toList

/-- A concrete HMAC stand-in that keeps key and message visibly apart,
so that distinct messages give distinct digests on the inputs used in
the concrete evaluations below. -/
def hC : String → String → String := fun k m => "h:" ++ k ++ ":" ++ m

/-- A concrete oracle environment for evaluating the handler: constant
HMAC digest "H" (so the matching signature header is "v0=H"), a
successful download, a nonempty transcript. -/
def wEnv : PyEnv where
  secret := "sec"
  hmac_hex := fun _ _ => "H"
  participants_data := some [some "a@b.c"]
  download_result := Except.ok (some "/tmp/rec.mp4")
  transcript := "hello"
  gen_summary_output := none
  chan_raw := "C1234567"
  get_channel_id := fun _ => none
  ensure_default_result := some "C0DEFAULT"
  post_result := true
  remove_raises := false

/-- A recording file entry of type MP4 with url and token. -/
def wMp4File : List (String × Json) :=
  [("file_type", Json.str "MP4"),
   ("download_url", Json.str "https://zoom.us/rec/f.mp4"),
   ("download_token", Json.str "tok")]

/-- The recording_info object of a well-formed recording.completed
payload with one MP4 file. -/
def wMp4Info : List (String × Json) :=
  [("topic", Json.str "Weekly Sync"),
   ("id", Json.num 123),
   ("uuid", Json.str "u1"),
   ("host_email", Json.str "host@example.com"),
   ("start_time", Json.str "2024-01-02T10:00:00Z"),
   ("duration", Json.num 30),
   ("recording_files", Json.arr [Json.obj wMp4File])]

/-- A complete recording.completed webhook body with one MP4 file. -/
def wDataMp4 : Json :=
  Json.obj [("event", Json.str "recording.completed"),
            ("payload", Json.obj [("object", Json.obj wMp4Info)])]

/-- A recording_info whose only recording file has file_type CHAT (no
recognized audio/video entry). -/
def wChatInfo : List (String × Json) :=
  [("uuid", Json.str "u1"),
   ("recording_files", Json.arr [Json.obj [("file_type", Json.str "CHAT")]])]

/-- The payload object wrapping wChatInfo. -/
def wChatPayload : List (String × Json) := [("object", Json.obj wChatInfo)]

/-- A recording.completed body whose recording_files has no MP4 entry. -/
def wChatDkvs : List (String × Json) :=
  [("event", Json.str "recording.completed"), ("payload", Json.obj wChatPayload)]

/-- An endpoint.url_validation body carrying a challenge token. -/
def wUrlValDkvs : List (String × Json) :=
  [("event", Json.str "endpoint.url_validation"),
   ("payload", Json.obj [("plainToken", Json.str "tok123")])]

/-- A raw request body whose bytes differ from the compact
re-serialization of its parsed value (a space after the colon). -/
def c2raw : String := "\x7b\"event\": \"x\"\x7d"

/-- The parsed value of c2raw. -/
def c2data : Json := Json.obj [("event", Json.str "x")]

/-- The oracle environment for the raw-body claim, using the
message-distinguishing HMAC stand-in. -/
def c2env : PyEnv := { wEnv with hmac_hex := hC, secret := "sec" }

/-- One fetched Slack channel whose name matches the default channel
name up to case. -/
def wSlackChan : SlackChannel :=
  SlackChannel.mk "Bot-Lost-Meeting-Recordings" "Lost recordings" "C111"


/-- Appending a common prefix is cancellative for strings. -/
theorem string_append_left_cancel (s a b : String) : (s ++ a = s ++ b) ↔ a = b := by
  constructor
  · intro h
    have hd := congrArg String.data h
    simp only [String.data_append] at hd
    have h2 := List.append_cancel_left hd
    cases a; cases b; cases h2; rfl
  · intro h; rw [h]

/-- Trace invariant of the recording_info stage: the temporary file flag
is never set, and any run that reached transcription ends in the 500
internal-error reply without posting (the generate_summary keyword
binding fails). -/
theorem zoom_webhook_info_trace_inv (env : PyEnv) (info : List (String × Json)) :
    ((zoom_webhook_recording_info env info {}).trace.removedFile = false) ∧
    ((zoom_webhook_recording_info env info {}).trace.calledTranscribe = true →
      (zoom_webhook_recording_info env info {}).status = 500 ∧
      (zoom_webhook_recording_info env info {}).message = "Internal server error." ∧
      (zoom_webhook_recording_info env info {}).trace.calledPost = false) := by
  unfold zoom_webhook_recording_info
  dsimp only
  repeat' split
  all_goals solve
    | exact absurd (by decide : (!generate_summary_call_ok) = true) (by assumption)
    | simp

/-- Trace invariant lifted over the payload/object extraction. -/
theorem zoom_webhook_rec_trace_inv (env : PyEnv) (dkvs : List (String × Json)) :
    ((zoom_webhook_recording env dkvs {}).trace.removedFile = false) ∧
    ((zoom_webhook_recording env dkvs {}).trace.calledTranscribe = true →
      (zoom_webhook_recording env dkvs {}).status = 500 ∧
      (zoom_webhook_recording env dkvs {}).message = "Internal server error." ∧
      (zoom_webhook_recording env dkvs {}).trace.calledPost = false) := by
  unfold zoom_webhook_recording
  repeat' split
  all_goals solve
    | exact zoom_webhook_info_trace_inv env _
    | simp

/-- Trace invariant of the whole handler. -/
theorem zoom_webhook_trace_inv (env : PyEnv) (data? : Option Json) (sig? ts? : Option String) :
    ((zoom_webhook env data? sig? ts?).trace.removedFile = false) ∧
    ((zoom_webhook env data? sig? ts?).trace.calledTranscribe = true →
      (zoom_webhook env data? sig? ts?).status = 500 ∧
      (zoom_webhook env data? sig? ts?).message = "Internal server error." ∧
      (zoom_webhook env data? sig? ts?).trace.calledPost = false) := by
  unfold zoom_webhook
  dsimp only
  repeat' split
  all_goals solve
    | exact zoom_webhook_rec_trace_inv env _
    | simp

/-- No reply of the post-summary segment carries status 401. -/
theorem zoom_webhook_post_summary_ne_401 (env : PyEnv) (t3 : CallTrace)
    (a b c d e : String) (ps : List String) (dur ru pp : Json) :
    (zoom_webhook_post_summary env t3 a b c d e ps dur ru pp).status ≠ 401 := by
  unfold zoom_webhook_post_summary
  dsimp only
  repeat' split
  all_goals simp

/-- No reply of the recording_info stage carries status 401. -/
theorem zoom_webhook_recording_info_ne_401 (env : PyEnv) (info : List (String × Json))
    (t0 : CallTrace) :
    (zoom_webhook_recording_info env info t0).status ≠ 401 := by
  unfold zoom_webhook_recording_info
  dsimp only
  repeat' split
  all_goals solve
    | simp
    | exact zoom_webhook_post_summary_ne_401 env _ _ _ _ _ _ _ _ _ _

/-- No reply of the recording.completed branch carries status 401. -/
theorem zoom_webhook_recording_ne_401 (env : PyEnv) (dkvs : List (String × Json))
    (t0 : CallTrace) :
    (zoom_webhook_recording env dkvs t0).status ≠ 401 := by
  unfold zoom_webhook_recording
  repeat' split
  all_goals solve
    | simp
    | exact zoom_webhook_recording_info_ne_401 env _ _

/-- The recording_files scan finds nothing when every entry is a dict
without an MP4 file_type. -/
theorem find_mp4_file_none_of_no_mp4 (files : List Json)
    (hf : ∀ f ∈ files, ∃ fk, f = Json.obj fk ∧
      (match jlookup fk "file_type" with
       | some (Json.str t) => t == "MP4"
       | _ => false) = false) :
    find_mp4_file files = Except.ok none := by
  induction files with
  | nil => rfl
  | cons f rest ih =>
      obtain ⟨fk, hecons, hmp4⟩ := hf f (by simp)
      subst hecons
      unfold find_mp4_file
      rw [hmp4]
      simp only [Bool.false_eq_true, if_false]
      exact ih (fun g hg => hf g (by simp [hg]))

/-- Claim C1 (corrected): the claim asserts that a timestamp more than
300 seconds from the current time makes validate_zoom_webhook return
false regardless of signature correctness.  This closed counterexample
exhibits a timestamp 1000 seconds in the past for which validation with
the correctly computed signature returns true: the function performs no
freshness check. -/
theorem validate_stale_timestamp_accepted_cex :
    300 < ((1000 : Int) - 0).natAbs ∧
    validate_zoom_webhook hC "s" ("v0=" ++ hC "s" ("v0:" ++ "0" ++ ":" ++ "b")) "0" "b" = true :=
  ⟨by decide, by decide⟩

/-- Claim C1 (amended): validate_zoom_webhook enforces no replay window:
for every clock value now, however far from the signed timestamp,
verification of the correctly computed signature succeeds.  The
timestamp influences the result only through the signed message. -/
theorem validate_ignores_timestamp_skew (h : String → String → String)
    (secret body : String) (ts now : Int) (_hskew : 300 < (now - ts).natAbs) :
    validate_zoom_webhook h secret
      ("v0=" ++ h secret ("v0:" ++ toString ts ++ ":" ++ body)) (toString ts) body = true := by
  simp [validate_zoom_webhook]

/-- Witness for validate_ignores_timestamp_skew at ts = 0, now = 1000. -/
theorem validate_ignores_timestamp_skew_witness :
    300 < ((1000 : Int) - 0).natAbs ∧
    validate_zoom_webhook hC "s"
      ("v0=" ++ hC "s" ("v0:" ++ toString (0 : Int) ++ ":" ++ "b")) (toString (0 : Int)) "b" = true :=
  ⟨by decide, validate_ignores_timestamp_skew hC "s" "b" 0 1000 (by decide)⟩

/-- Claim C2 (corrected): the claim asserts the verification HMAC is
computed over the raw body as received.  Counterexample: a received body
with a space after the colon parses, its compact re-serialization
differs from it, and a request signed by the provider over the received
bytes is rejected with 401 by the handler, which hashes the
re-serialization (app.py line 68). -/
theorem payload_reserialization_cex :
    parseJson c2raw = some c2data
    ∧ json_dumps c2data ≠ c2raw
    ∧ (zoom_webhook c2env (parseJson c2raw)
        (some ("v0=" ++ hC "sec" ("v0:" ++ "99" ++ ":" ++ c2raw))) (some "99")).status = 401 :=
  ⟨rfl, by decide, by decide⟩

/-- Claim C2 (amended): for every received body raw that parses to data,
the handler verifies the signature against json_dumps data (the compact
re-serialization), not against raw: the handler answers 401 exactly when
validation over the re-serialization fails, and validation of a
signature computed over the raw bytes succeeds exactly when the HMAC of
the re-serialization coincides with the HMAC of the raw bytes. -/
theorem webhook_payload_is_reserialization (env : PyEnv) (raw : String) (data : Json)
    (sig ts : String) (hp : parseJson raw = some data) (hfal : jsonFalsy data = false)
    (hsig : sig ≠ "") (hts : ts ≠ "") :
    ((zoom_webhook env (parseJson raw) (some sig) (some ts)).status = 401
      ↔ validate_zoom_webhook env.hmac_hex env.secret sig ts (json_dumps data) = false)
    ∧ ((validate_zoom_webhook env.hmac_hex env.secret
          ("v0=" ++ env.hmac_hex env.secret ("v0:" ++ ts ++ ":" ++ raw)) ts
          (json_dumps data) = true)
        ↔ env.hmac_hex env.secret ("v0:" ++ ts ++ ":" ++ json_dumps data)
            = env.hmac_hex env.secret ("v0:" ++ ts ++ ":" ++ raw)) := by
  constructor
  · rw [hp]
    unfold zoom_webhook
    dsimp only
    have hsf : (sig == "") = false := beq_eq_false_iff_ne.mpr hsig
    have htf : (ts == "") = false := beq_eq_false_iff_ne.mpr hts
    simp only [hfal, hsf, htf, Option.getD_some, Bool.false_eq_true, if_false, Bool.or_self]
    by_cases hv : validate_zoom_webhook env.hmac_hex env.secret sig ts (json_dumps data) = true
    case neg =>
        have hv2 : validate_zoom_webhook env.hmac_hex env.secret sig ts (json_dumps data) = false := by
          simpa using hv
        simp [hv2]
    case pos =>
        simp only [hv, Bool.not_true, Bool.true_eq_false, Bool.false_eq_true, if_false,
          iff_false]
        cases data with
        | obj dkvs =>
            dsimp only
            by_cases hevt : (match jlookup dkvs "event" with
              | some (Json.str e) => e == "recording.completed"
              | _ => false) = true
            · rw [if_pos hevt]
              exact zoom_webhook_recording_ne_401 env dkvs _
            · rw [if_neg hevt]
              simp
        | null => simp
        | bool b => simp
        | num n => simp
        | str s => simp
        | arr xs => simp
  · unfold validate_zoom_webhook
    simp only [beq_iff_eq]
    exact string_append_left_cancel _ _ _

/-- Witness for webhook_payload_is_reserialization at the concrete
spaced body. -/
theorem webhook_payload_is_reserialization_witness :
    parseJson c2raw = some c2data
    ∧ jsonFalsy c2data = false
    ∧ (((zoom_webhook c2env (parseJson c2raw) (some "v0=H") (some "99")).status = 401
          ↔ validate_zoom_webhook c2env.hmac_hex c2env.secret "v0=H" "99"
              (json_dumps c2data) = false)
        ∧ ((validate_zoom_webhook c2env.hmac_hex c2env.secret
              ("v0=" ++ c2env.hmac_hex c2env.secret ("v0:" ++ "99" ++ ":" ++ c2raw)) "99"
              (json_dumps c2data) = true)
            ↔ c2env.hmac_hex c2env.secret ("v0:" ++ "99" ++ ":" ++ json_dumps c2data)
                = c2env.hmac_hex c2env.secret ("v0:" ++ "99" ++ ":" ++ c2raw))) :=
  ⟨rfl, rfl,
    webhook_payload_is_reserialization c2env c2raw c2data "v0=H" "99" rfl rfl
      (by decide) (by decide)⟩

/-- Claim C3 (confirmed): verifying the correctly computed signature
"v0=" + hmac(secret, "v0:" + timestamp + ":" + body) succeeds for every
secret, timestamp and body, and any other provided signature string is
rejected.  hmac.compare_digest is modelled by its functional content,
string equality (its constant-time execution is a property of the
library primitive used at zoom_utils line 114). -/
theorem validate_roundtrip_and_reject (h : String → String → String)
    (secret ts body sig : String) :
    (sig = "v0=" ++ h secret ("v0:" ++ ts ++ ":" ++ body) →
      validate_zoom_webhook h secret sig ts body = true)
    ∧ (sig ≠ "v0=" ++ h secret ("v0:" ++ ts ++ ":" ++ body) →
      validate_zoom_webhook h secret sig ts body = false) := by
  refine ⟨fun he => ?_, fun hne => ?_⟩
  · simp [validate_zoom_webhook, he]
  · have hne2 : ("v0=" ++ h secret ("v0:" ++ ts ++ ":" ++ body)) ≠ sig :=
      fun hh => hne hh.symm
    simp [validate_zoom_webhook, hne2]

/-- Witness for validate_roundtrip_and_reject: the round trip accepts
and a wrong signature is refused at concrete inputs. -/
theorem validate_roundtrip_and_reject_witness :
    validate_zoom_webhook hC "k" ("v0=" ++ hC "k" ("v0:" ++ "1" ++ ":" ++ "p")) "1" "p" = true
    ∧ validate_zoom_webhook hC "k" "bogus" "1" "p" = false :=
  ⟨(validate_roundtrip_and_reject hC "k" "1" "p" _).1 rfl,
   (validate_roundtrip_and_reject hC "k" "1" "p" "bogus").2 (by decide)⟩

/-- Claim C4 (confirmed): every request whose processing reaches the
transcription step (so a recording.completed event that was verified and
whose download succeeded) ends in the 500 internal-error reply without
post_to_slack being invoked: the generate_summary call at app.py lines
145 to 154 passes the keyword argument participants, which the
definition at openai_utils line 125 does not accept, so the call raises
TypeError, caught only by the outer boundary handler. -/
theorem generate_summary_participants_type_error (env : PyEnv) (data? : Option Json)
    (sig? ts? : Option String)
    (hreach : (zoom_webhook env data? sig? ts?).trace.calledTranscribe = true) :
    (zoom_webhook env data? sig? ts?).status = 500
    ∧ (zoom_webhook env data? sig? ts?).message = "Internal server error."
    ∧ (zoom_webhook env data? sig? ts?).trace.calledPost = false
    ∧ generate_summary_call_ok = false
    ∧ app_generate_summary_call_kwargs.contains "participants" = true
    ∧ generate_summary_params.contains "participants" = false := by
  have h := (zoom_webhook_trace_inv env data? sig? ts?).2 hreach
  exact ⟨h.1, h.2.1, h.2.2, by decide, by decide, by decide⟩

/-- Witness for generate_summary_participants_type_error on a complete
MP4 recording event with a successful download. -/
theorem generate_summary_participants_type_error_witness :
    (zoom_webhook wEnv (some wDataMp4) (some "v0=H") (some "5")).trace.calledTranscribe = true
    ∧ ((zoom_webhook wEnv (some wDataMp4) (some "v0=H") (some "5")).status = 500
      ∧ (zoom_webhook wEnv (some wDataMp4) (some "v0=H") (some "5")).message
          = "Internal server error."
      ∧ (zoom_webhook wEnv (some wDataMp4) (some "v0=H") (some "5")).trace.calledPost = false
      ∧ generate_summary_call_ok = false
      ∧ app_generate_summary_call_kwargs.contains "participants" = true
      ∧ generate_summary_params.contains "participants" = false) :=
  ⟨by decide,
   generate_summary_participants_type_error wEnv (some wDataMp4) (some "v0=H") (some "5")
     (by decide)⟩

/-- Claim C5 (corrected): the claim asserts the downloaded temporary
file is deleted before the handler returns on every exit path.
Counterexample: a verified recording.completed event with a successful
download returns 500 with the file not removed (the TypeError raised at
the generate_summary call bypasses the cleanup code at app.py lines 232
to 237, which is unreachable). -/
theorem download_leaks_temp_file_cex :
    (zoom_webhook wEnv (some wDataMp4) (some "v0=H") (some "5")).trace.calledDownload = true
    ∧ (zoom_webhook wEnv (some wDataMp4) (some "v0=H") (some "5")).status = 500
    ∧ (zoom_webhook wEnv (some wDataMp4) (some "v0=H") (some "5")).trace.removedFile = false :=
  ⟨by decide, by decide, by decide⟩

/-- Claim C5 (amended): the handler never removes the temporary file on
any input: every run that downloads a recording raises TypeError at the
generate_summary call and returns 500 before the cleanup statement, so
the os.remove at app.py line 234 is dead code. -/
theorem temp_file_never_removed (env : PyEnv) (data? : Option Json) (sig? ts? : Option String) :
    (zoom_webhook env data? sig? ts?).trace.removedFile = false :=
  (zoom_webhook_trace_inv env data? sig? ts?).1

/-- Claim C6 (corrected): the claim asserts a 200 no-recording outcome
when no recognized file type is present.  Counterexample: a verified
recording.completed event whose nonempty recording_files holds only a
CHAT entry is answered 400 Recording URL or download token is missing,
not 200 (only the empty list reaches the 200 branch at app.py line 97). -/
theorem no_mp4_entry_returns_400_cex :
    zoom_webhook wEnv (some (Json.obj wChatDkvs)) (some "v0=H") (some "5")
      = HttpReply.mk 400 "Recording URL or download token is missing." {}
    ∧ (zoom_webhook wEnv (some (Json.obj wChatDkvs)) (some "v0=H") (some "5")).status ≠ 200 :=
  ⟨by decide, by decide⟩

/-- Claim C6 (amended): for a verified recording.completed event none of
whose recording_files entries has file_type MP4 (the only type the
handler recognizes), the handler answers 200 No recordings available in
payload when the list is empty and 400 Recording URL or download token
is missing when it is nonempty, and in both cases neither download nor
transcription is invoked. -/
theorem recording_files_without_mp4 (env : PyEnv) (dkvs pkvs info : List (String × Json))
    (files : List Json) (sig ts : String)
    (hsig : sig ≠ "") (hts : ts ≠ "")
    (hevent : jlookup dkvs "event" = some (Json.str "recording.completed"))
    (hval : validate_zoom_webhook env.hmac_hex env.secret sig ts
      (json_dumps (Json.obj dkvs)) = true)
    (hpay : jlookup dkvs "payload" = some (Json.obj pkvs))
    (hobj : jlookup pkvs "object" = some (Json.obj info))
    (hid : pyStr (jlookup info "id") ≠ "")
    (huuid : optJsonFalsy (jlookup info "uuid") = false)
    (hrf : jlookupD info "recording_files" (Json.arr []) = Json.arr files)
    (hnomp4 : ∀ f ∈ files, ∃ fk, f = Json.obj fk ∧
      (match jlookup fk "file_type" with
       | some (Json.str t) => t == "MP4"
       | _ => false) = false) :
    zoom_webhook env (some (Json.obj dkvs)) (some sig) (some ts) =
      (if files.isEmpty then HttpReply.mk 200 "No recordings available in payload." {}
       else HttpReply.mk 400 "Recording URL or download token is missing." {})
    ∧ (zoom_webhook env (some (Json.obj dkvs)) (some sig) (some ts)).trace.calledDownload
        = false
    ∧ (zoom_webhook env (some (Json.obj dkvs)) (some sig) (some ts)).trace.calledTranscribe
        = false := by
  have hfal : jsonFalsy (Json.obj dkvs) = false := by
    cases dkvs with
    | nil => simp [jlookup] at hevent
    | cons a l => rfl
  have hidf : (pyStr (jlookup info "id") == "") = false := beq_eq_false_iff_ne.mpr hid
  have hmain : zoom_webhook env (some (Json.obj dkvs)) (some sig) (some ts) =
      (if files.isEmpty then HttpReply.mk 200 "No recordings available in payload." {}
       else HttpReply.mk 400 "Recording URL or download token is missing." {}) := by
    unfold zoom_webhook
    dsimp only
    simp only [hfal, beq_eq_false_iff_ne.mpr hsig, beq_eq_false_iff_ne.mpr hts,
      Option.getD_some, Bool.false_eq_true, if_false, Bool.or_self, hval, Bool.not_true]
    rw [hevent]
    dsimp only
    simp only [beq_self_eq_true, if_true]
    unfold zoom_webhook_recording
    rw [hpay]
    dsimp only
    rw [hobj]
    dsimp only
    unfold zoom_webhook_recording_info
    dsimp only
    simp only [hidf, huuid, Bool.or_self, Bool.false_eq_true, if_false]
    rw [hrf]
    dsimp only
    cases hemp : files.isEmpty with
    | true => simp [hemp]
    | false =>
        simp only [hemp, Bool.false_eq_true, if_false]
        rw [find_mp4_file_none_of_no_mp4 files hnomp4]
        simp [optJsonFalsy]
  refine ⟨hmain, ?_, ?_⟩ <;> rw [hmain] <;> cases files.isEmpty <;> rfl

/-- Witness for recording_files_without_mp4 on the CHAT-only event. -/
theorem recording_files_without_mp4_witness :
    zoom_webhook wEnv (some (Json.obj wChatDkvs)) (some "v0=H") (some "5") =
      (if ([Json.obj [("file_type", Json.str "CHAT")]] : List Json).isEmpty
        then HttpReply.mk 200 "No recordings available in payload." {}
        else HttpReply.mk 400 "Recording URL or download token is missing." {})
    ∧ (zoom_webhook wEnv (some (Json.obj wChatDkvs))
        (some "v0=H") (some "5")).trace.calledDownload = false
    ∧ (zoom_webhook wEnv (some (Json.obj wChatDkvs))
        (some "v0=H") (some "5")).trace.calledTranscribe = false :=
  recording_files_without_mp4 wEnv wChatDkvs wChatPayload wChatInfo
    [Json.obj [("file_type", Json.str "CHAT")]] "v0=H" "5"
    (by decide) (by decide) rfl (by decide) rfl rfl (by decide) rfl rfl
    (by
      intro f hf
      simp only [List.mem_singleton] at hf
      subst hf
      exact ⟨[("file_type", Json.str "CHAT")], rfl, by decide⟩)

/-- Claim C7 (corrected): the claim asserts an HTTP error status fails
immediately without retry and that the caller receives no path rather
than an exception.  Counterexample: with every attempt answering HTTP
404, raise_for_status raises HTTPError, a RequestException subclass that
tenacity retries: three attempts run and a RetryError propagates to the
caller. -/
theorem download_http_error_retried_cex :
    download_recording "https://zoom.us/rec/f.mp4" "/tmp/x.mp4" (fun _ => NetOutcome.resp 404)
      = (DlOutcome.raisedRetryError DlErr.httpError, 3)
    ∧ is_request_exception DlErr.httpError = true :=
  ⟨by decide, rfl⟩

/-- Claim C7 (amended): download_recording makes at most 3 attempts; the
only exception that can reach the caller is a tenacity RetryError,
raised exactly when all 3 attempts failed with a RequestException
(HTTP error statuses included, since HTTPError subclasses it); None is
returned with a single attempt and no retry for an invalid URL (and
likewise for an unsupported extension or a non-requests failure). -/
theorem download_recording_retry_behavior (url tmp : String) (net : Nat → NetOutcome) :
    (download_recording url tmp net).2 ≤ 3
    ∧ (∀ e, (download_recording url tmp net).1 ≠ DlOutcome.raisedDirect e)
    ∧ (∀ e, (download_recording url tmp net).1 = DlOutcome.raisedRetryError e →
        (download_recording url tmp net).2 = 3 ∧ is_request_exception e = true)
    ∧ (is_valid_download_url url = false →
        download_recording url tmp net = (DlOutcome.returned none, 1)) := by
  have hre : ∀ e : DlErr, is_request_exception e = true := fun e => by cases e <;> rfl
  have hinv2 : ∀ n, is_valid_download_url url = false →
      download_attempt url tmp (net n) = Except.ok none := by
    intro n hv
    unfold download_attempt
    rw [hv]
    simp
  cases h1 : download_attempt url tmp (net 1) with
  | ok v =>
      refine ⟨?_, ?_, ?_, ?_⟩
      · simp [download_recording, tenacity_loop, h1]
      · intro e; simp [download_recording, tenacity_loop, h1]
      · intro e; simp [download_recording, tenacity_loop, h1]
      · intro hv
        have h0 := hinv2 1 hv
        rw [h0] at h1
        simp [download_recording, tenacity_loop, h0]
  | error e1 =>
      cases h2 : download_attempt url tmp (net 2) with
      | ok v =>
          refine ⟨?_, ?_, ?_, ?_⟩
          · simp [download_recording, tenacity_loop, h1, h2, hre]
          · intro e; simp [download_recording, tenacity_loop, h1, h2, hre]
          · intro e; simp [download_recording, tenacity_loop, h1, h2, hre]
          · intro hv; rw [hinv2 1 hv] at h1; exact absurd h1 (by simp)
      | error e2 =>
          cases h3 : download_attempt url tmp (net 3) with
          | ok v =>
              refine ⟨?_, ?_, ?_, ?_⟩
              · simp [download_recording, tenacity_loop, h1, h2, h3, hre]
              · intro e; simp [download_recording, tenacity_loop, h1, h2, h3, hre]
              · intro e; simp [download_recording, tenacity_loop, h1, h2, h3, hre]
              · intro hv; rw [hinv2 1 hv] at h1; exact absurd h1 (by simp)
          | error e3 =>
              refine ⟨?_, ?_, ?_, ?_⟩
              · simp [download_recording, tenacity_loop, h1, h2, h3, hre]
              · intro e; simp [download_recording, tenacity_loop, h1, h2, h3, hre]
              · intro e he
                refine ⟨?_, hre e⟩
                simp [download_recording, tenacity_loop, h1, h2, h3, hre]
              · intro hv; rw [hinv2 1 hv] at h1; exact absurd h1 (by simp)

/-- Witness for download_recording_retry_behavior: a network error on
every attempt exhausts the 3 attempts, and an invalid URL returns None
on the first attempt. -/
theorem download_recording_retry_behavior_witness :
    (download_recording "https://zoom.us/rec/f.mp4" "/tmp/x.mp4"
        (fun _ => NetOutcome.netError)).2 ≤ 3
    ∧ ((download_recording "https://zoom.us/rec/f.mp4" "/tmp/x.mp4"
        (fun _ => NetOutcome.netError)).2 = 3
        ∧ is_request_exception DlErr.requestException = true)
    ∧ download_recording "notaurl" "/tmp/x.mp4" (fun _ => NetOutcome.resp 200)
        = (DlOutcome.returned none, 1) := by
  have h1 := download_recording_retry_behavior "https://zoom.us/rec/f.mp4" "/tmp/x.mp4"
    (fun _ => NetOutcome.netError)
  have h2 := download_recording_retry_behavior "notaurl" "/tmp/x.mp4"
    (fun _ => NetOutcome.resp 200)
  exact ⟨h1.1, h1.2.2.1 DlErr.requestException (by decide), h2.2.2.2 (by decide)⟩

/-- Claim C8 (corrected): the claim asserts that a URL-ownership
validation request is answered 200 with the challenge token echoed back.
Counterexample: a verified endpoint.url_validation request carrying
plainToken tok123 receives the generic 200 Event received
acknowledgement, whose body does not contain the token: app.py has no
endpoint.url_validation branch. -/
theorem url_validation_token_not_echoed_cex :
    (zoom_webhook wEnv (some (Json.obj wUrlValDkvs)) (some "v0=H") (some "5")).status = 200
    ∧ (zoom_webhook wEnv (some (Json.obj wUrlValDkvs)) (some "v0=H") (some "5")).message
        = "Event received"
    ∧ strContainsSub
        (zoom_webhook wEnv (some (Json.obj wUrlValDkvs)) (some "v0=H") (some "5")).message
        "tok123" = false :=
  ⟨by decide, by decide, by decide⟩

/-- Claim C8 (amended): every verified request whose event tag is not
recording.completed - including endpoint.url_validation - receives the
same generic 200 Event received acknowledgement with no pipeline calls;
no challenge token is echoed. -/
theorem non_recording_events_generic_ack (env : PyEnv) (dkvs : List (String × Json))
    (sig ts : String) (hsig : sig ≠ "") (hts : ts ≠ "")
    (hfal : jsonFalsy (Json.obj dkvs) = false)
    (hval : validate_zoom_webhook env.hmac_hex env.secret sig ts
      (json_dumps (Json.obj dkvs)) = true)
    (hevt : (match jlookup dkvs "event" with
             | some (Json.str e) => e == "recording.completed"
             | _ => false) = false) :
    zoom_webhook env (some (Json.obj dkvs)) (some sig) (some ts)
      = HttpReply.mk 200 "Event received" {} := by
  unfold zoom_webhook
  dsimp only
  simp only [hfal, beq_eq_false_iff_ne.mpr hsig, beq_eq_false_iff_ne.mpr hts,
    Option.getD_some, Bool.false_eq_true, if_false, Bool.or_self, hval, Bool.not_true,
    hevt]

/-- Witness for non_recording_events_generic_ack on the
endpoint.url_validation event. -/
theorem non_recording_events_generic_ack_witness :
    zoom_webhook wEnv (some (Json.obj wUrlValDkvs)) (some "v0=H") (some "5")
      = HttpReply.mk 200 "Event received" {} :=
  non_recording_events_generic_ack wEnv wUrlValDkvs "v0=H" "5"
    (by decide) (by decide) rfl rfl rfl

/-- Claim C9 (corrected): the claim asserts a model-returned channel id
absent from the known-channels set is rejected as no-match.
Counterexample: the response-validation logic of
determine_slack_channel accepts the shape-valid id C1234567 as-is with
no membership check against any channel set (here one not containing
it).  At runtime the function returns None for every input instead,
because the module never imports re. -/
theorem channel_id_membership_unchecked_cex :
    determine_slack_channel_validate "C1234567" = some "C1234567"
    ∧ (["C0000001"] : List String).contains "C1234567" = false
    ∧ determine_slack_channel_runtime "C1234567" = none :=
  ⟨by decide, by decide, rfl⟩

/-- Claim C9 (amended): ensure_default_channel_exists searches the
fetched channels case-insensitively for the default name and returns the
first match; when absent it returns the id of a successful creation; on
a name_taken failure it re-fetches and returns the existing channel id
found case-insensitively (None when even the re-fetch lacks it); any
other creation failure yields None. -/
theorem ensure_default_channel_behavior (fetched : List SlackChannel)
    (cr : CreateChannelResult) (refetched : List SlackChannel) (name : String) :
    (∀ c, fetched.find? (fun c2 => pyLower c2.name == pyLower name) = some c →
      ensure_default_channel_exists fetched cr refetched name = some c.id)
    ∧ (fetched.find? (fun c2 => pyLower c2.name == pyLower name) = none →
        (∀ id, cr = CreateChannelResult.ok id →
          ensure_default_channel_exists fetched cr refetched name = some id)
        ∧ (cr = CreateChannelResult.nameTaken →
            ensure_default_channel_exists fetched cr refetched name =
              (refetched.find? (fun c2 => pyLower c2.name == pyLower name)).map
                (fun c => c.id))
        ∧ (cr = CreateChannelResult.otherError →
            ensure_default_channel_exists fetched cr refetched name = none)) := by
  have key : ∀ l : List SlackChannel,
      (get_all_public_channels l).find? (fun c => c.name == pyLower name)
        = (l.find? (fun c2 => pyLower c2.name == pyLower name)).map
            (fun c => SlackChannel.mk (pyLower c.name) (pyLower c.topic) c.id) := by
    intro l
    unfold get_all_public_channels
    rw [List.find?_map]
    rfl
  constructor
  · intro c hc
    unfold ensure_default_channel_exists
    dsimp only
    rw [key fetched, hc]
    rfl
  · intro hnone
    refine ⟨?_, ?_, ?_⟩
    · intro id hcr
      subst hcr
      unfold ensure_default_channel_exists
      dsimp only
      rw [key fetched, hnone]
      rfl
    · intro hcr
      subst hcr
      unfold ensure_default_channel_exists
      dsimp only
      rw [key fetched, hnone]
      rw [key refetched]
      cases hr : refetched.find? (fun c2 => pyLower c2.name == pyLower name) <;> simp
    · intro hcr
      subst hcr
      unfold ensure_default_channel_exists
      dsimp only
      rw [key fetched, hnone]
      rfl

/-- Witness for ensure_default_channel_behavior: a case-insensitive
match on the fetched list is returned, and with an empty fetched list a
name_taken creation falls back to the re-fetched list. -/
theorem ensure_default_channel_behavior_witness :
    ([wSlackChan].find?
        (fun c2 => pyLower c2.name == pyLower "bot-lost-meeting-recordings")
      = some wSlackChan)
    ∧ ensure_default_channel_exists [wSlackChan] (CreateChannelResult.ok "C222") []
        "bot-lost-meeting-recordings" = some "C111"
    ∧ ensure_default_channel_exists [] CreateChannelResult.nameTaken [wSlackChan]
        "bot-lost-meeting-recordings"
        = (([wSlackChan] : List SlackChannel).find?
            (fun c2 => pyLower c2.name == pyLower "bot-lost-meeting-recordings")).map
            (fun c => c.id) := by
  refine ⟨rfl, ?_, ?_⟩
  · exact (ensure_default_channel_behavior [wSlackChan] (CreateChannelResult.ok "C222") []
      "bot-lost-meeting-recordings").1 wSlackChan rfl
  · exact ((ensure_default_channel_behavior [] CreateChannelResult.nameTaken [wSlackChan]
      "bot-lost-meeting-recordings").2 rfl).2.1 rfl

/-- Claim C10 (corrected): the claim asserts the summary object used for
message formatting contains all four top-level keys.  Counterexample:
the object built on the placeholder path has exactly the three top-level
keys meeting_details, share_details and meeting_summary - there is no
fourth key in the schema. -/
theorem summary_has_three_top_level_keys_cex :
    topLevelKeys (app_final_meeting_summary (Json.obj []) "T" "2024-01-02" "10:00:00"
        "h@x.y" "123" ["p@q.r"] (Json.num 30) (Json.str "https://u") (Json.str "pw"))
      = ["meeting_details", "share_details", "meeting_summary"]
    ∧ ¬ (topLevelKeys (app_final_meeting_summary (Json.obj []) "T" "2024-01-02" "10:00:00"
        "h@x.y" "123" ["p@q.r"] (Json.num 30) (Json.str "https://u")
        (Json.str "pw"))).length = 4 :=
  ⟨rfl, by decide⟩

/-- Claim C10 (amended): whenever generate_summary returned a falsy
value, the substituted object carries exactly the three top-level keys
meeting_details, share_details and meeting_summary with placeholder
content, and the message-formatting step is total on it (it produces a
message rather than raising), for all field values. -/
theorem placeholder_summary_keys_and_total (topic md mt he mid : String)
    (participants : List String) (duration url pw : Json) (gen : Json)
    (hfal : jsonFalsy gen = true) :
    topLevelKeys (app_final_meeting_summary gen topic md mt he mid participants duration
        url pw)
      = ["meeting_details", "share_details", "meeting_summary"]
    ∧ (build_recording_summary
        (app_final_meeting_summary gen topic md mt he mid participants duration
          url pw)).isSome = true := by
  unfold app_final_meeting_summary
  rw [hfal]
  exact ⟨rfl, rfl⟩

/-- Witness for placeholder_summary_keys_and_total at the empty dict
returned by a failed generate_summary. -/
theorem placeholder_summary_keys_and_total_witness :
    jsonFalsy (Json.obj []) = true
    ∧ (topLevelKeys (app_final_meeting_summary (Json.obj []) "Weekly" "2024-01-02" "10:00"
          "h@x.y" "123" ["p@q.r"] (Json.num 30) (Json.str "https://u") (Json.str "pw"))
        = ["meeting_details", "share_details", "meeting_summary"]
      ∧ (build_recording_summary
          (app_final_meeting_summary (Json.obj []) "Weekly" "2024-01-02" "10:00"
            "h@x.y" "123" ["p@q.r"] (Json.num 30) (Json.str "https://u")
            (Json.str "pw"))).isSome = true) :=
  ⟨rfl, placeholder_summary_keys_and_total "Weekly" "2024-01-02" "10:00" "h@x.y" "123"
    ["p@q.r"] (Json.num 30) (Json.str "https://u") (Json.str "pw") (Json.obj []) rfl⟩
